import Mathlib

/-!
Verification of the SQL Lab execution-dispatch API (`superset/sqllab/api.py`
and `superset/sql/api.py`) against its natural-language specification.

The controller layer (`SqlLabRestApi`) is embedded directly from the source.
Collaborators whose code lives elsewhere in the repository (the dispatch
command, the results-retrieval command, the result normalizer) are modelled
from the spec, each marked `Modelled from the spec:` in its doc comment.
Side-effecting collaborators (schema validation, external SaaS calls, the
executor, the results backend) are passed in as explicit oracle values, and
effects (records created, external calls made) are returned as explicit data.
-/

namespace Superset

/-- The execution context built from the request body
(`SqlJsonExecutionContext(request.json)`); field set from the spec's data
model, section 3. Immutable after construction. -/
structure SqlJsonExecutionContext where
  sqlText : String
  databaseId : Nat
  schemaName : String
  clientId : String
  runAsynchronous : Bool
  expandData : Bool
  selectAsCta : Bool
  tmpTableName : String
  queryLimit : Nat
  deriving Repr, DecidableEq

/-- `execution_context.is_run_asynchronous()`: the run-async flag of the
context. -/
def SqlJsonExecutionContext.is_run_asynchronous
    (ctx : SqlJsonExecutionContext) : Bool :=
  ctx.runAsynchronous

/-- The configuration surface read by the controller:
`SQLLAB_TIMEOUT`, the `SQLLAB_BACKEND_PERSISTENCE` feature flag,
`DISPLAY_MAX_ROW` and `SQLLAB_CTAS_NO_LIMIT`. -/
structure Config where
  SQLLAB_TIMEOUT : Nat
  SQLLAB_BACKEND_PERSISTENCE : Bool
  DISPLAY_MAX_ROW : Nat
  SQLLAB_CTAS_NO_LIMIT : Bool
  deriving Repr, DecidableEq

/-- Column metadata: name and declared type, carried through normalization
verbatim (spec section 3, `ColumnMeta`). -/
structure ColumnMeta where
  name : String
  declaredType : String
  deriving Repr, DecidableEq

/-- A raw execution outcome before normalization: ordered columns, ordered
rows, and the query id (spec section 4.6, `rawResult`). -/
structure RawResult where
  columns : List ColumnMeta
  rows : List (List String)
  queryId : Nat
  deriving Repr, DecidableEq

/-- The wire-shape result set (spec section 3): ordered columns, displayed
rows, total and displayed row counts, the limited flag and the query id. -/
structure ResultSet where
  columns : List ColumnMeta
  rows : List (List String)
  rowCountTotal : Nat
  rowCountDisplayed : Nat
  isLimited : Bool
  queryId : Nat
  deriving Repr, DecidableEq

/-- Modelled from the spec: the Result Normalizer (`ExecutionContextConvertor`
serialization, section 4.6; the convertor's code is outside src).  Truncates
the rows to `maxDisplayRows`, sets `isLimited = rowCountTotal >
maxDisplayRows`, preserves column order and declared types verbatim; pure. -/
def normalize (raw : RawResult) (maxDisplayRows : Nat) : ResultSet :=
  { columns := raw.columns
    rows := raw.rows.take maxDisplayRows
    rowCountTotal := raw.rows.length
    rowCountDisplayed := min raw.rows.length maxDisplayRows
    isLimited := decide (raw.rows.length > maxDisplayRows)
    queryId := raw.queryId }

/-- The `ExecutionContextConvertor` as the controller configures it: a
convertor holding the max-row-in-display value set by
`set_max_row_in_display(int(config.get("DISPLAY_MAX_ROW")))`. -/
structure ExecutionContextConvertor where
  maxRowInDisplay : Nat
  deriving Repr, DecidableEq

/-- The two executor variants of `superset.sqllab.sql_json_executer`, as the
controller constructs them: `ASynchronousSqlJsonExecutor(query_dao,
get_sql_results)` and `SynchronousSqlJsonExecutor(query_dao, get_sql_results,
SQLLAB_TIMEOUT, SQLLAB_BACKEND_PERSISTENCE)`.  The `query_dao` and
`get_sql_results` collaborators are identical for both variants and carry no
data at this layer, so only the variant-specific constructor arguments are
recorded. -/
inductive SqlJsonExecutor where
  | aSynchronous : SqlJsonExecutor
  | synchronous (timeoutSeconds : Nat) (backendPersistence : Bool) :
      SqlJsonExecutor
  deriving Repr, DecidableEq

/-- `SqlLabRestApi._create_sql_json_executor`: selects the executor variant
from the context's run-async flag. -/
def create_sql_json_executor (cfg : Config)
    (execution_context : SqlJsonExecutionContext) : SqlJsonExecutor :=
  if execution_context.is_run_asynchronous then
    SqlJsonExecutor.aSynchronous
  else
    SqlJsonExecutor.synchronous cfg.SQLLAB_TIMEOUT cfg.SQLLAB_BACKEND_PERSISTENCE

/-- Kinds of domain exception (`superset.sqllab.exceptions`, declared outside
src).  Modelled from the spec: section 7's taxonomy distinguishes the
forbidden kind (`QueryIsForbiddenToAccessException`), render failures and a
generic catch-all; the controller only tests membership in the forbidden
subclass, every other kind is handled uniformly through the declared status. -/
inductive SqlLabExceptionKind where
  | queryIsForbiddenToAccess
  | sqlQueryRender
  | generic
  deriving Repr, DecidableEq

/-- A `SqlLabException` carries a kind and its own declared `status`
attribute (the controller returns `ex.status` for non-forbidden kinds). -/
structure SqlLabException where
  kind : SqlLabExceptionKind
  status : Nat
  message : String
  deriving Repr, DecidableEq

/-- Execution status of a command result.  Modelled from the spec:
`ExecutionResult.status ∈ {success, queryIsRunning, failed}` (section 3);
`queryIsRunning` embeds the source's `SqlJsonExecutionStatus.QUERY_IS_RUNNING`. -/
inductive SqlJsonExecutionStatus where
  | success
  | queryIsRunning
  | failed
  deriving Repr, DecidableEq

/-- `CommandResult` returned by `ExecuteSqlCommand.run()`: a status and a
pre-serialized payload string (passed verbatim to `json_success`). -/
structure CommandResult where
  status : SqlJsonExecutionStatus
  payload : String
  deriving Repr, DecidableEq

/-- An exception raised by `command.run()`: either a domain
`SqlLabException` or any other (non-domain, unexpected) exception. -/
inductive RaisedException where
  | sqlLab (ex : SqlLabException)
  | other (message : String)
  deriving Repr, DecidableEq

/-- Body of an HTTP response produced by the controller. -/
inductive ResponseBody where
  | jsonPayload (p : String)
  | errors (errs : List SqlLabException)
  | validationMessages (msgs : List String)
  | result (r : String)
  | resultSet (rs : ResultSet)
  deriving Repr, DecidableEq

/-- An HTTP response: status code and body. -/
structure Response where
  status : Nat
  body : ResponseBody
  deriving Repr, DecidableEq

/-- Outcome of running the handler body: either a response it built, or an
exception that escaped the handler (no `except` clause matched). -/
inductive HandlerOutcome where
  | response (r : Response)
  | uncaught (message : String)
  deriving Repr, DecidableEq

/-- `SqlLabRestApi.execute_sql_query`, the `/execute/` POST handler:
validate the body with `ExecutePayloadSchema` (a `ValidationError` yields
`response_400` with the messages); otherwise run the command and map the
outcome: 202 when the command result's status is `QUERY_IS_RUNNING`, 200 for
any other command result, and for a raised `SqlLabException` respond 403 when
it is a `QueryIsForbiddenToAccessException` and `ex.status` otherwise.  Any
non-`SqlLabException` exception escapes the handler.  The outcomes of the
schema load and of `command.run()` are passed in as oracles. -/
def execute_sql_query (loadResult : Except (List String) Unit)
    (runResult : Except RaisedException CommandResult) : HandlerOutcome :=
  match loadResult with
  | .error msgs => .response ⟨400, .validationMessages msgs⟩
  | .ok _ =>
    match runResult with
    | .ok command_result =>
        let response_status :=
          if command_result.status = SqlJsonExecutionStatus.queryIsRunning
          then 202 else 200
        .response ⟨response_status, .jsonPayload command_result.payload⟩
    | .error (.sqlLab ex) =>
        let response_status :=
          if ex.kind = SqlLabExceptionKind.queryIsForbiddenToAccess
          then 403 else ex.status
        .response ⟨response_status, .errors [ex]⟩
    | .error (.other m) => .uncaught m

/-- The `ExecuteSqlCommand` as assembled by the controller.  The query DAO,
database DAO, access validator, query renderer and template processor are
data-free collaborator handles at this layer; the data-carrying constructor
arguments are recorded. -/
structure ExecuteSqlCommand where
  execution_context : SqlJsonExecutionContext
  sql_json_executor : SqlJsonExecutor
  execution_context_convertor : ExecutionContextConvertor
  sqllab_ctas_no_limit : Bool
  deriving Repr, DecidableEq

/-- `SqlLabRestApi._create_sql_json_command`: builds the executor for the
context, a convertor whose display cap is `DISPLAY_MAX_ROW`, and the
command over them with the `SQLLAB_CTAS_NO_LIMIT` config value. -/
def create_sql_json_command (cfg : Config)
    (execution_context : SqlJsonExecutionContext) : ExecuteSqlCommand :=
  { execution_context := execution_context
    sql_json_executor := create_sql_json_executor cfg execution_context
    execution_context_convertor := ⟨cfg.DISPLAY_MAX_ROW⟩
    sqllab_ctas_no_limit := cfg.SQLLAB_CTAS_NO_LIMIT }

/-- Side effects of one dispatch: Query records persisted, render calls and
executor invocations performed. -/
structure DispatchEffects where
  queryRecordsCreated : Nat
  renderCalls : Nat
  executorInvocations : Nat
  deriving Repr, DecidableEq

/-- Oracles for one dispatch: the Access Validator verdict, the Query
Renderer outcome and the executor outcome (status plus serialized payload,
or a raised exception). -/
structure DispatchEnv where
  accessAllowed : Bool
  renderResult : Except SqlLabException String
  executorResult : Except RaisedException (SqlJsonExecutionStatus × String)
  deriving Repr

/-- The `QueryIsForbiddenToAccessException` raised by the Access Validator
(declared status 403 per the spec's taxonomy). -/
def forbiddenException : SqlLabException :=
  ⟨SqlLabExceptionKind.queryIsForbiddenToAccess, 403,
   "The query is forbidden to access"⟩

/-- Modelled from the spec: `ExecuteSqlCommand.run()` (the command's code,
`superset/sqllab/commands/execute.py`, is outside src), following the
dispatch algorithm of section 4.5: (1) validate access, aborting forbidden
with no Query record created; (2) render the SQL, aborting on render error;
(3) create the Query record in pending state; (4) invoke the chosen
executor once; (5)–(6) hand the outcome back for normalization and status
mapping.  Returns the command result (or raised exception) together with
the effects performed. -/
def ExecuteSqlCommand_run (env : DispatchEnv) :
    Except RaisedException CommandResult × DispatchEffects :=
  if env.accessAllowed = false then
    (.error (.sqlLab forbiddenException), ⟨0, 0, 0⟩)
  else
    match env.renderResult with
    | .error ex => (.error (.sqlLab ex), ⟨0, 1, 0⟩)
    | .ok _rendered =>
      match env.executorResult with
      | .error e => (.error e, ⟨1, 1, 1⟩)
      | .ok (st, payload) => (.ok ⟨st, payload⟩, ⟨1, 1, 1⟩)

/-- Creation effects at the handler level: execution contexts built,
commands built, and Query records persisted by the dispatch. -/
structure HandlerEffects where
  contextsCreated : Nat
  commandsCreated : Nat
  queryRecordsCreated : Nat
  deriving Repr, DecidableEq

/-- The `/execute/` handler end to end, with effects: on a schema
`ValidationError` it returns `response_400` with the messages before any
execution context or command is constructed; otherwise it builds the
context and the command (once each) and maps the outcome of
`ExecuteSqlCommand.run` exactly as `execute_sql_query` does. -/
def execute_sql_query_with_effects (loadResult : Except (List String) Unit)
    (env : DispatchEnv) : HandlerOutcome × HandlerEffects :=
  match loadResult with
  | .error msgs => (.response ⟨400, .validationMessages msgs⟩, ⟨0, 0, 0⟩)
  | .ok _ =>
      let rn := ExecuteSqlCommand_run env
      (execute_sql_query (.ok ()) rn.1, ⟨1, 1, rn.2.queryRecordsCreated⟩)

/-- Modelled from the spec: the web framework's catch-all around every
handler ("500 on unexpected failure", "`UnexpectedExecutionError`
(catch-all, 500)").  An exception that escapes the handler body is converted
into an HTTP 500 error response; a response built by the handler passes
through unchanged. -/
def frameworkWrap (o : HandlerOutcome) : Response :=
  match o with
  | .response r => r
  | .uncaught m => ⟨500, .errors [⟨SqlLabExceptionKind.generic, 500, m⟩]⟩

/-- The external service calls the `/nlp/tosql` handler can make, in source
order: `pinecone.init`, `openai.Embedding.create`, `pinecone_index.query`,
`openai.ChatCompletion.create`. -/
inductive ExternalCall where
  | pineconeInit
  | openaiEmbeddingCreate
  | pineconeIndexQuery
  | openaiChatCompletionCreate
  deriving Repr, DecidableEq

/-- Oracles for the external services of `/nlp/tosql`: each call either
returns a value or raises (modelled as `Except` with the exception's
message).  `embeddingCreate` receives the `to_sql` text, `pineconeQuery`
the embedding and the `database_id` filter (returning each match's
`metadata.original`), `chatCompletionCreate` the assembled prompt. -/
structure NlpEnv where
  pineconeInitResult : Except String Unit
  embeddingCreate : String → Except String String
  pineconeQuery : String → Nat → Except String (List String)
  chatCompletionCreate : String → Except String String

/-- The instruction block appended to the prompt (verbatim from the
source). -/
def nlpInstructions (database_backend : String) : String :=
  "\nINSTRUCTIONS:\n" ++
  "The 'COMMAND' given above is a natural language command that you must transform into one SQL query.\n" ++
  "In order to generate the SQL query properly, follow the instructions below:\n" ++
  "1. Only SELECT statements are allowed\n" ++
  "2. Use the SQL dialect " ++ database_backend ++ "\n" ++
  "3. Use all table definitions above\n" ++
  "4. Respond solely with the SQL query\n" ++
  "\n\x7b\x7b SQL_QUERY \x7d\x7d\n"

/-- The prompt assembled by the handler: the concatenated sources, the
natural-language command, and the instruction block. -/
def nlpPrompt (all_sources to_sql database_backend : String) : String :=
  "" ++ "\n" ++ all_sources ++ "\n" ++
  "\nCOMMAND:\n" ++ to_sql ++ "\n" ++ nlpInstructions database_backend

/-- `SqlLabRestApi.execute_completion`, the `/nlp/tosql` POST handler:
validate the body with `NLPtoSQLPayloadSchema` (a `ValidationError` yields
`response_400` with the messages, before any external call); then, inside a
bare `try`, initialize pinecone, embed the prompt, query the vector index,
assemble the prompt and request a chat completion, answering 200 with the
completion's content — while `except Exception as e: print(e)` swallows any
exception on that path: the message is printed and the handler returns no
response at all.  Returns the optional response, the external calls made in
order, and the messages printed. -/
def execute_completion (loadResult : Except (List String) Unit)
    (to_sql : String) (database_id : Nat) (database_backend : String)
    (env : NlpEnv) : Option Response × List ExternalCall × List String :=
  match loadResult with
  | .error msgs => (some ⟨400, .validationMessages msgs⟩, [], [])
  | .ok _ =>
    match env.pineconeInitResult with
    | .error e => (none, [.pineconeInit], [e])
    | .ok _ =>
      match env.embeddingCreate to_sql with
      | .error e => (none, [.pineconeInit, .openaiEmbeddingCreate], [e])
      | .ok prompt_to_vectors =>
        match env.pineconeQuery prompt_to_vectors database_id with
        | .error e =>
            (none, [.pineconeInit, .openaiEmbeddingCreate,
                    .pineconeIndexQuery], [e])
        | .ok pinecone_matches =>
          let all_sources :=
            String.join (pinecone_matches.map (fun o => o ++ "\n"))
          let prompt := nlpPrompt all_sources to_sql database_backend
          match env.chatCompletionCreate prompt with
          | .error e =>
              (none, [.pineconeInit, .openaiEmbeddingCreate,
                      .pineconeIndexQuery, .openaiChatCompletionCreate], [e])
          | .ok content =>
              (some ⟨200, .result content⟩,
               [.pineconeInit, .openaiEmbeddingCreate,
                .pineconeIndexQuery, .openaiChatCompletionCreate], [])

/-- A result set as stored in the results backend under a `resultsKey`. -/
structure StoredResult where
  columns : List ColumnMeta
  rows : List (List String)
  queryId : Nat
  deriving Repr, DecidableEq

/-- The shared results backend: an association of `resultsKey` to stored
result data (read-many/write-once; writes are outside this core). -/
structure ResultsBackend where
  store : List (String × StoredResult)
  deriving Repr, DecidableEq

/-- Failures of Results Retrieval per the spec's taxonomy: unknown key /
unavailable backend, or a store access timeout. -/
inductive ResultsError where
  | resultsBackendError
  | resultsBackendTimeoutError
  deriving Repr, DecidableEq

/-- Modelled from the spec: `SqlExecutionResultsCommand.run()` (the
command's code, `superset/sqllab/commands/results.py`, is outside src),
section 4.7: look up the stored result by key, failing with a
`ResultsBackendError` when the key is unknown; when `rows` is given, return
only that many rows; never mutate the stored data (the backend is returned
unchanged alongside the result). -/
def SqlExecutionResultsCommand_run (backend : ResultsBackend) (key : String)
    (rows : Option Nat) : Except ResultsError ResultSet × ResultsBackend :=
  match backend.store.lookup key with
  | none => (.error .resultsBackendError, backend)
  | some stored =>
      let displayed :=
        match rows with
        | none => stored.rows
        | some n => stored.rows.take n
      (.ok { columns := stored.columns
             rows := displayed
             rowCountTotal := stored.rows.length
             rowCountDisplayed := displayed.length
             isLimited := decide (stored.rows.length > displayed.length)
             queryId := stored.queryId }, backend)

/-- `SqlLabRestApi.get_results`, the `/results/` GET handler: read `key`
and `rows` from the rison parameters, run
`SqlExecutionResultsCommand(key=key, rows=rows)` and answer 200 with the
serialized result; a command failure propagates to the framework's error
mapping. -/
def get_results (backend : ResultsBackend) (key : String)
    (rows : Option Nat) : Except ResultsError Response × ResultsBackend :=
  let rb := SqlExecutionResultsCommand_run backend key rows
  match rb.1 with
  | .error e => (.error e, rb.2)
  | .ok rs => (.ok ⟨200, .resultSet rs⟩, rb.2)

end Superset

namespace Superset

/- ## Claims C2 and C10: executor selection -/

/-- C2: For every execution context, exactly one executor variant is selected
by the `runAsynchronous` flag: if `is_run_asynchronous()` is true the
asynchronous executor is constructed, otherwise the synchronous executor is
constructed with the configured timeout and backend-persistence flag. -/
theorem executor_variant_selected_by_flag (cfg : Config)
    (ctx : SqlJsonExecutionContext) :
    (ctx.is_run_asynchronous = true →
      create_sql_json_executor cfg ctx = SqlJsonExecutor.aSynchronous) ∧
    (ctx.is_run_asynchronous = false →
      create_sql_json_executor cfg ctx =
        SqlJsonExecutor.synchronous cfg.SQLLAB_TIMEOUT
          cfg.SQLLAB_BACKEND_PERSISTENCE) := by
  constructor <;> intro h <;> simp [create_sql_json_executor, h]

/-- Witness for C2 at a concrete context and configuration. -/
theorem executor_variant_selected_by_flag_witness :
    let cfg : Config :=
      { SQLLAB_TIMEOUT := 30, SQLLAB_BACKEND_PERSISTENCE := true,
        DISPLAY_MAX_ROW := 1000, SQLLAB_CTAS_NO_LIMIT := false }
    let ctx : SqlJsonExecutionContext :=
      { sqlText := "SELECT 1", databaseId := 1, schemaName := "public",
        clientId := "c1", runAsynchronous := false, expandData := false,
        selectAsCta := false, tmpTableName := "", queryLimit := 100 }
    create_sql_json_executor cfg ctx = SqlJsonExecutor.synchronous 30 true :=
  (executor_variant_selected_by_flag _ _).2 (by decide)

/-- C10: the executor-variant choice depends only on the context's
`runAsynchronous` flag: two contexts agreeing on `is_run_asynchronous()`
yield the same executor, whatever their other fields. -/
theorem executor_choice_depends_only_on_flag (cfg : Config)
    (ctx₁ ctx₂ : SqlJsonExecutionContext)
    (h : ctx₁.is_run_asynchronous = ctx₂.is_run_asynchronous) :
    create_sql_json_executor cfg ctx₁ = create_sql_json_executor cfg ctx₂ := by
  simp [create_sql_json_executor, h]

/-- Witness for C10: two contexts differing in every field except the flag
select the same executor. -/
theorem executor_choice_depends_only_on_flag_witness :
    let cfg : Config :=
      { SQLLAB_TIMEOUT := 30, SQLLAB_BACKEND_PERSISTENCE := true,
        DISPLAY_MAX_ROW := 1000, SQLLAB_CTAS_NO_LIMIT := false }
    let ctx₁ : SqlJsonExecutionContext :=
      { sqlText := "SELECT 1", databaseId := 1, schemaName := "public",
        clientId := "c1", runAsynchronous := true, expandData := false,
        selectAsCta := false, tmpTableName := "", queryLimit := 100 }
    let ctx₂ : SqlJsonExecutionContext :=
      { sqlText := "SELECT * FROM big_table", databaseId := 7,
        schemaName := "sales", clientId := "c2", runAsynchronous := true,
        expandData := true, selectAsCta := true, tmpTableName := "tmp",
        queryLimit := 5 }
    create_sql_json_executor cfg ctx₁ = create_sql_json_executor cfg ctx₂ :=
  executor_choice_depends_only_on_flag _ _ _ (by decide)

/- ## Claim C1: outcome-to-status mapping of `execute_sql_query` -/

/-- C1: for every dispatched execution request (schema validation passed),
the final outcome maps to a status code as follows: a command result with
status `QUERY_IS_RUNNING` yields 202, any other command result yields 200, a
raised `QueryIsForbiddenToAccessException` yields 403, and any other raised
`SqlLabException` yields that exception's own declared `status` attribute. -/
theorem execute_sql_query_status_mapping
    (runResult : Except RaisedException CommandResult) :
    (∀ cr, runResult = .ok cr →
      cr.status = SqlJsonExecutionStatus.queryIsRunning →
      execute_sql_query (.ok ()) runResult =
        .response ⟨202, .jsonPayload cr.payload⟩) ∧
    (∀ cr, runResult = .ok cr →
      cr.status ≠ SqlJsonExecutionStatus.queryIsRunning →
      execute_sql_query (.ok ()) runResult =
        .response ⟨200, .jsonPayload cr.payload⟩) ∧
    (∀ ex, runResult = .error (.sqlLab ex) →
      ex.kind = SqlLabExceptionKind.queryIsForbiddenToAccess →
      execute_sql_query (.ok ()) runResult = .response ⟨403, .errors [ex]⟩) ∧
    (∀ ex, runResult = .error (.sqlLab ex) →
      ex.kind ≠ SqlLabExceptionKind.queryIsForbiddenToAccess →
      execute_sql_query (.ok ()) runResult =
        .response ⟨ex.status, .errors [ex]⟩) := by
  refine ⟨?_, ?_, ?_, ?_⟩ <;> intro x hx hcond <;> subst hx <;>
    simp [execute_sql_query, hcond]

/-- Witness for C1 at concrete outcomes: a running command result gives 202,
a completed one gives 200, a forbidden exception gives 403, and a generic
domain exception with declared status 400 gives 400. -/
theorem execute_sql_query_status_mapping_witness :
    execute_sql_query (.ok ())
        (.ok ⟨SqlJsonExecutionStatus.queryIsRunning, "running-payload"⟩) =
      .response ⟨202, .jsonPayload "running-payload"⟩ ∧
    execute_sql_query (.ok ())
        (.ok ⟨SqlJsonExecutionStatus.success, "done-payload"⟩) =
      .response ⟨200, .jsonPayload "done-payload"⟩ ∧
    execute_sql_query (.ok ())
        (.error (.sqlLab ⟨SqlLabExceptionKind.queryIsForbiddenToAccess,
          403, "forbidden"⟩)) =
      .response ⟨403, .errors
        [⟨SqlLabExceptionKind.queryIsForbiddenToAccess, 403, "forbidden"⟩]⟩ ∧
    execute_sql_query (.ok ())
        (.error (.sqlLab ⟨SqlLabExceptionKind.generic, 400, "bad"⟩)) =
      .response ⟨400, .errors [⟨SqlLabExceptionKind.generic, 400, "bad"⟩]⟩ :=
  ⟨(execute_sql_query_status_mapping _).1 _ rfl rfl,
   (execute_sql_query_status_mapping _).2.1 _ rfl (by decide),
   (execute_sql_query_status_mapping _).2.2.1 _ rfl rfl,
   (execute_sql_query_status_mapping _).2.2.2 _ rfl (by decide)⟩

/- ## Claim C3: unexpected failures and the response contract -/

/-- C3: any submission failing with a non-domain exception (not a
`SqlLabException`) reaches the caller as an HTTP 500 error response, and —
given that every domain exception's declared status is one of 400, 403, 500
(the spec's taxonomy) — no outcome of the endpoint escapes the
200/202/400/403/500 contract. -/
theorem execute_unexpected_maps_to_500
    (loadResult : Except (List String) Unit)
    (runResult : Except RaisedException CommandResult)
    (hdomain : ∀ ex, runResult = .error (.sqlLab ex) →
      ex.status = 400 ∨ ex.status = 403 ∨ ex.status = 500) :
    (∀ u m, loadResult = .ok u → runResult = .error (.other m) →
      (frameworkWrap (execute_sql_query loadResult runResult)).status = 500) ∧
    ((frameworkWrap (execute_sql_query loadResult runResult)).status = 200 ∨
     (frameworkWrap (execute_sql_query loadResult runResult)).status = 202 ∨
     (frameworkWrap (execute_sql_query loadResult runResult)).status = 400 ∨
     (frameworkWrap (execute_sql_query loadResult runResult)).status = 403 ∨
     (frameworkWrap (execute_sql_query loadResult runResult)).status = 500) := by
  constructor
  · intro u m hl hm
    subst hl; subst hm
    simp [execute_sql_query, frameworkWrap]
  · cases loadResult with
    | error msgs => simp [execute_sql_query, frameworkWrap]
    | ok u =>
      cases runResult with
      | ok cr =>
        by_cases h : cr.status = SqlJsonExecutionStatus.queryIsRunning <;>
          simp [execute_sql_query, frameworkWrap, h]
      | error ex =>
        cases ex with
        | other m => simp [execute_sql_query, frameworkWrap]
        | sqlLab e =>
          by_cases h : e.kind = SqlLabExceptionKind.queryIsForbiddenToAccess
          · simp [execute_sql_query, frameworkWrap, h]
          · have := hdomain e rfl
            simp only [execute_sql_query, frameworkWrap, if_neg h]
            rcases this with h400 | h403 | h500
            · right; right; left; simpa using h400
            · right; right; right; left; simpa using h403
            · right; right; right; right; simpa using h500

/-- Witness for C3: a non-domain exception "boom" after a passing schema
validation is answered with status 500. -/
theorem execute_unexpected_maps_to_500_witness :
    (frameworkWrap (execute_sql_query (.ok ())
        (.error (.other "boom")))).status = 500 ∧
    ((frameworkWrap (execute_sql_query (.ok ())
        (.error (.other "boom")))).status = 200 ∨
     (frameworkWrap (execute_sql_query (.ok ())
        (.error (.other "boom")))).status = 202 ∨
     (frameworkWrap (execute_sql_query (.ok ())
        (.error (.other "boom")))).status = 400 ∨
     (frameworkWrap (execute_sql_query (.ok ())
        (.error (.other "boom")))).status = 403 ∨
     (frameworkWrap (execute_sql_query (.ok ())
        (.error (.other "boom")))).status = 500) :=
  ⟨(execute_unexpected_maps_to_500 (.ok ()) (.error (.other "boom"))
      (by intro ex h; cases h)).1 () "boom" rfl rfl,
   (execute_unexpected_maps_to_500 (.ok ()) (.error (.other "boom"))
      (by intro ex h; cases h)).2⟩

/- ## Claim C4: forbidden requests have no side effects -/

/-- C4: an execution request failing the Access Validator aborts with the
forbidden exception — mapped to a 403 response — and no Query record is
created, no SQL is rendered and no executor is invoked. -/
theorem forbidden_request_no_side_effects (env : DispatchEnv)
    (h : env.accessAllowed = false) :
    (ExecuteSqlCommand_run env).1 = .error (.sqlLab forbiddenException) ∧
    (ExecuteSqlCommand_run env).2.queryRecordsCreated = 0 ∧
    (ExecuteSqlCommand_run env).2.renderCalls = 0 ∧
    (ExecuteSqlCommand_run env).2.executorInvocations = 0 ∧
    execute_sql_query_with_effects (.ok ()) env =
      (.response ⟨403, .errors [forbiddenException]⟩, ⟨1, 1, 0⟩) := by
  refine ⟨?_, ?_, ?_, ?_, ?_⟩ <;>
    simp [ExecuteSqlCommand_run, h, execute_sql_query_with_effects,
      execute_sql_query, forbiddenException]

/-- Witness for C4 at a concrete environment whose validator denies
access. -/
theorem forbidden_request_no_side_effects_witness :
    let env : DispatchEnv :=
      ⟨false, .ok "SELECT 1",
       .ok (SqlJsonExecutionStatus.success, "payload")⟩
    (ExecuteSqlCommand_run env).1 = .error (.sqlLab forbiddenException) ∧
    (ExecuteSqlCommand_run env).2.queryRecordsCreated = 0 ∧
    (ExecuteSqlCommand_run env).2.renderCalls = 0 ∧
    (ExecuteSqlCommand_run env).2.executorInvocations = 0 ∧
    execute_sql_query_with_effects (.ok ()) env =
      (.response ⟨403, .errors [forbiddenException]⟩, ⟨1, 1, 0⟩) :=
  forbidden_request_no_side_effects
    ⟨false, .ok "SELECT 1", .ok (SqlJsonExecutionStatus.success, "payload")⟩
    rfl

/- ## Claim C5: display cap of the normalized result set -/

/-- C5: for a synchronous submission, the command built by the controller
carries the synchronous executor and a convertor whose display cap is the
`DISPLAY_MAX_ROW` config value, and the normalized result set satisfies
`rowCountDisplayed ≤ maxDisplayRows`, `isLimited ↔ rowCountTotal >
maxDisplayRows`, with columns (order and declared types) preserved
verbatim and rows a prefix of the raw rows. -/
theorem sync_resultset_respects_display_cap (cfg : Config)
    (ctx : SqlJsonExecutionContext) (raw : RawResult)
    (h : ctx.is_run_asynchronous = false) :
    (create_sql_json_command cfg ctx).sql_json_executor =
      SqlJsonExecutor.synchronous cfg.SQLLAB_TIMEOUT
        cfg.SQLLAB_BACKEND_PERSISTENCE ∧
    (create_sql_json_command cfg ctx).execution_context_convertor.maxRowInDisplay
      = cfg.DISPLAY_MAX_ROW ∧
    (normalize raw
      (create_sql_json_command cfg ctx).execution_context_convertor.maxRowInDisplay).rowCountDisplayed
      ≤ cfg.DISPLAY_MAX_ROW ∧
    ((normalize raw
      (create_sql_json_command cfg ctx).execution_context_convertor.maxRowInDisplay).isLimited
        = true ↔
      (normalize raw
        (create_sql_json_command cfg ctx).execution_context_convertor.maxRowInDisplay).rowCountTotal
          > cfg.DISPLAY_MAX_ROW) ∧
    (normalize raw
      (create_sql_json_command cfg ctx).execution_context_convertor.maxRowInDisplay).columns
      = raw.columns ∧
    (normalize raw
      (create_sql_json_command cfg ctx).execution_context_convertor.maxRowInDisplay).rows
      = raw.rows.take cfg.DISPLAY_MAX_ROW := by
  refine ⟨by simp [create_sql_json_command, create_sql_json_executor, h],
    rfl, ?_, ?_, rfl, rfl⟩
  · simp [normalize, create_sql_json_command]
  · simp [normalize, create_sql_json_command]

/-- Witness for C5: three raw rows against a display cap of two give two
displayed rows and `isLimited = true`. -/
theorem sync_resultset_respects_display_cap_witness :
    let cfg : Config :=
      { SQLLAB_TIMEOUT := 30, SQLLAB_BACKEND_PERSISTENCE := false,
        DISPLAY_MAX_ROW := 2, SQLLAB_CTAS_NO_LIMIT := false }
    let ctx : SqlJsonExecutionContext :=
      { sqlText := "SELECT a FROM t", databaseId := 1,
        schemaName := "public", clientId := "c1", runAsynchronous := false,
        expandData := false, selectAsCta := false, tmpTableName := "",
        queryLimit := 100 }
    let raw : RawResult :=
      { columns := [⟨"a", "INT"⟩], rows := [["1"], ["2"], ["3"]],
        queryId := 9 }
    (create_sql_json_command cfg ctx).sql_json_executor =
      SqlJsonExecutor.synchronous 30 false ∧
    (create_sql_json_command cfg ctx).execution_context_convertor.maxRowInDisplay
      = 2 ∧
    (normalize raw
      (create_sql_json_command cfg ctx).execution_context_convertor.maxRowInDisplay).rowCountDisplayed
      ≤ 2 ∧
    ((normalize raw
      (create_sql_json_command cfg ctx).execution_context_convertor.maxRowInDisplay).isLimited
        = true ↔
      (normalize raw
        (create_sql_json_command cfg ctx).execution_context_convertor.maxRowInDisplay).rowCountTotal
          > 2) ∧
    (normalize raw
      (create_sql_json_command cfg ctx).execution_context_convertor.maxRowInDisplay).columns
      = raw.columns ∧
    (normalize raw
      (create_sql_json_command cfg ctx).execution_context_convertor.maxRowInDisplay).rows
      = raw.rows.take 2 :=
  sync_resultset_respects_display_cap _ _ _ rfl

/- ## Claim C6: schema validation failure of `/execute/` -/

/-- C6: an execute request whose body fails `ExecutePayloadSchema`
validation is answered 400 with the validation messages, and no execution
context, command or Query record is created. -/
theorem execute_validation_failure_returns_400 (msgs : List String)
    (env : DispatchEnv) :
    execute_sql_query_with_effects (.error msgs) env =
      (.response ⟨400, .validationMessages msgs⟩, ⟨0, 0, 0⟩) := rfl

/- ## Claims C7 and C9: the `/nlp/tosql` handler -/

/-- C7: after schema validation passes, the `/nlp/tosql` handler never
produces an error response: either every external call succeeds and a 200
with the completion content is returned with nothing printed, or the first
raised exception is printed (exactly one message) and the handler returns
no response at all. -/
theorem execute_completion_swallows_exceptions (to_sql : String)
    (database_id : Nat) (database_backend : String) (env : NlpEnv) :
    ((execute_completion (.ok ()) to_sql database_id database_backend
        env).1 = none ∧
      ∃ e, (execute_completion (.ok ()) to_sql database_id database_backend
        env).2.2 = [e]) ∨
    (∃ content,
      (execute_completion (.ok ()) to_sql database_id database_backend
          env).1 = some ⟨200, .result content⟩ ∧
      (execute_completion (.ok ()) to_sql database_id database_backend
          env).2.2 = []) := by
  cases hinit : env.pineconeInitResult with
  | error e =>
    exact .inl ⟨by simp [execute_completion, hinit],
      e, by simp [execute_completion, hinit]⟩
  | ok u =>
    cases hemb : env.embeddingCreate to_sql with
    | error e =>
      exact .inl ⟨by simp [execute_completion, hinit, hemb],
        e, by simp [execute_completion, hinit, hemb]⟩
    | ok v =>
      cases hq : env.pineconeQuery v database_id with
      | error e =>
        exact .inl ⟨by simp [execute_completion, hinit, hemb, hq],
          e, by simp [execute_completion, hinit, hemb, hq]⟩
      | ok pinecone_matches =>
        cases hc : env.chatCompletionCreate
            (nlpPrompt
              (String.join (pinecone_matches.map (fun o => o ++ "\n")))
              to_sql database_backend) with
        | error e =>
          exact .inl ⟨by simp [execute_completion, hinit, hemb, hq, hc],
            e, by simp [execute_completion, hinit, hemb, hq, hc]⟩
        | ok content =>
          exact .inr ⟨content,
            by simp [execute_completion, hinit, hemb, hq, hc],
            by simp [execute_completion, hinit, hemb, hq, hc]⟩

/-- C9: a `/nlp/tosql` request whose body fails `NLPtoSQLPayloadSchema`
validation is answered 400 with the validation messages before any
external service is contacted: the call trace is empty. -/
theorem nlp_validation_before_external_calls (msgs : List String)
    (to_sql : String) (database_id : Nat) (database_backend : String)
    (env : NlpEnv) :
    execute_completion (.error msgs) to_sql database_id database_backend env
      = (some ⟨400, .validationMessages msgs⟩, [], []) := rfl

/- ## Claim C8: Results Retrieval is read-only and idempotent -/

/-- C8: `get_results` never mutates the results backend; running it a
second time on the backend state left by the first run returns the identical
outcome; and a `rows` argument not exceeding the stored row count yields a
result set holding exactly the first `rows` stored rows, again with the
backend unchanged. -/
theorem results_retrieval_idempotent_readonly (backend : ResultsBackend)
    (key : String) (rows : Option Nat) :
    (get_results backend key rows).2 = backend ∧
    get_results (get_results backend key rows).2 key rows =
      get_results backend key rows ∧
    (∀ stored n, backend.store.lookup key = some stored → rows = some n →
      n ≤ stored.rows.length →
      ∃ rs, (SqlExecutionResultsCommand_run backend key rows).1 = .ok rs ∧
        rs.rows = stored.rows.take n ∧ rs.rows.length = n ∧
        (SqlExecutionResultsCommand_run backend key rows).2 = backend) := by
  have hro : (get_results backend key rows).2 = backend := by
    unfold get_results SqlExecutionResultsCommand_run
    cases backend.store.lookup key with
    | none => rfl
    | some stored => rfl
  refine ⟨hro, by rw [hro], ?_⟩
  intro stored n hl hr hn
  subst hr
  refine ⟨{ columns := stored.columns
            rows := stored.rows.take n
            rowCountTotal := stored.rows.length
            rowCountDisplayed := (stored.rows.take n).length
            isLimited :=
              decide (stored.rows.length > (stored.rows.take n).length)
            queryId := stored.queryId }, ?_, ?_, ?_, ?_⟩ <;>
    simp [SqlExecutionResultsCommand_run, hl, List.length_take,
      Nat.min_eq_left hn]

/-- A stored result used to witness C8. -/
def demoStored : StoredResult :=
  { columns := [⟨"a", "INT"⟩], rows := [["1"], ["2"], ["3"]], queryId := 4 }

/-- A one-key results backend used to witness C8. -/
def demoBackend : ResultsBackend := ⟨[("k", demoStored)]⟩

/-- Witness for C8: fetching key "k" with `rows = 2` from a backend storing
three rows leaves the backend unchanged and returns exactly the first two
stored rows. -/
theorem results_retrieval_idempotent_readonly_witness :
    (get_results demoBackend "k" (some 2)).2 = demoBackend ∧
    get_results (get_results demoBackend "k" (some 2)).2 "k" (some 2) =
      get_results demoBackend "k" (some 2) ∧
    ∃ rs, (SqlExecutionResultsCommand_run demoBackend "k" (some 2)).1 =
        .ok rs ∧
      rs.rows = demoStored.rows.take 2 ∧ rs.rows.length = 2 ∧
      (SqlExecutionResultsCommand_run demoBackend "k" (some 2)).2 =
        demoBackend :=
  ⟨(results_retrieval_idempotent_readonly demoBackend "k" (some 2)).1,
   (results_retrieval_idempotent_readonly demoBackend "k" (some 2)).2.1,
   (results_retrieval_idempotent_readonly demoBackend "k" (some 2)).2.2
     demoStored 2 rfl rfl (by decide)⟩

end Superset
